import Mathlib

/-!
Verification development for the llm-url-based-quiz backend.

Python strings are modelled as lists of characters (`Str`); Python dicts that
the code builds with literal keys are modelled as association lists; fallible
library calls (network, JSON decoding, the LLM backends) are oracles supplied
through explicit environment records, while every line of the repository's own
logic is translated directly from the source files.
-/

/-- Python strings are modelled as lists of characters. -/
abbrev Str := List Char

/-- Turn a Lean string literal into the list-of-characters model. -/
def strL (s : String) : Str := s.data

/-- The apostrophe character, used by Python error messages. -/
def apos : Char := Char.ofNat 39

/-- The backtick character of markdown fences. -/
def btick : Char := Char.ofNat 96

/-- Wrap a word in apostrophes, as Python repr does for strings in messages. -/
def quoted (w : Str) : Str := apos :: (w ++ [apos])

/-- Characters removed by Python str.strip() (the ASCII whitespace set). -/
def isPySpace (c : Char) : Bool :=
  c == ' ' || c == '\t' || c == '\n' || c == '\r' ||
  c == Char.ofNat 11 || c == Char.ofNat 12

/-- Python str.strip(): drop whitespace from both ends. -/
def pyStrip (s : Str) : Str :=
  ((s.dropWhile isPySpace).reverse.dropWhile isPySpace).reverse

/-- Python str.lower(); the strings the code compares are ASCII, where
Char.toLower agrees with Python. -/
def lowerStr (s : Str) : Str := s.map Char.toLower

/-- Boolean prefix test on the list model. -/
def isPreL : Str → Str → Bool
  | [], _ => true
  | _ :: _, [] => false
  | a :: as, b :: bs => a == b && isPreL as bs

/-- Python substring membership (`needle in hay`): a contiguous occurrence. -/
def substrIn (needle : Str) : Str → Bool
  | [] => needle.isEmpty
  | c :: rest => isPreL needle (c :: rest) || substrIn needle rest

/-! ## config.py -/

/-- config.MIN_SUMMARY_LENGTH. -/
def MIN_SUMMARY_LENGTH : Nat := 100

/-- config.MAX_SUMMARY_LENGTH. -/
def MAX_SUMMARY_LENGTH : Nat := 200000

/-! ## modules/guardrails.py -/

/-- The forbidden_patterns list of ContentGuardrails.validate_summary. -/
def forbidden_patterns : List Str :=
  [strL "violence", strL "hate", strL "adult content", strL "explicit",
   strL "drugs", strL "weapons", strL "illegal"]

/-- ContentGuardrails.validate_summary. The length bounds interpolated into
the messages are the config values 100 and 200000. -/
def validate_summary (summary : Str) : Bool × Str :=
  if summary.isEmpty then (false, strL "Summary is empty")
  else if summary.length < MIN_SUMMARY_LENGTH then
    (false, strL "Summary too short (min 100 chars)")
  else if summary.length > MAX_SUMMARY_LENGTH then
    (false, strL "Summary too long (max 200000 chars)")
  else if forbidden_patterns.any (fun p => substrIn p (lowerStr summary)) then
    (false, strL "Content contains inappropriate material")
  else (true, strL "Summary passed validation")

/-- Scalar Python values as far as validate_quiz inspects them: only the value
under the key "type" is ever read (all other values are tested for key
presence only), so values are modelled by scalar constructors. -/
inductive Leaf
  | str (s : Str)
  | int (n : Int)
  | bool (b : Bool)
  | null
deriving DecidableEq

/-- A quiz question: a Python dict, modelled as an association list. -/
abbrev Question := List (Str × Leaf)

/-- Python dict .get on a question (first matching key). -/
def qGet (q : Question) (k : Str) : Option Leaf :=
  match q.find? (fun kv => kv.1 == k) with
  | some kv => some kv.2
  | none => none

/-- Python `field in q` key-membership test. -/
def hasField (q : Question) (k : Str) : Bool := (qGet q k).isSome

/-- Python str() of a scalar value, used in the unknown-type message. -/
def leafStr : Leaf → Str
  | .str s => s
  | .int n => strL (toString n)
  | .bool b => if b then strL "True" else strL "False"
  | .null => strL "None"

/-- The required_fields dict of validate_quiz, as a lookup on the declared
type value: an entry for the three known type strings, none otherwise. -/
def required_fields (t : Leaf) : Option (List Str) :=
  match t with
  | .str s =>
    if s = strL "multiple_choice" then
      some [strL "id", strL "question", strL "options", strL "correct_answer"]
    else if s = strL "true_false" then
      some [strL "id", strL "question", strL "correct_answer"]
    else if s = strL "fill_blank" then
      some [strL "id", strL "question", strL "correct_answer"]
    else none
  | _ => none

/-- The per-question body of the validate_quiz loop: the first failure message
for this question, if any. -/
def check_question (q : Question) : Option Str :=
  let t := (qGet q (strL "type")).getD (.str (strL "unknown"))
  match required_fields t with
  | none => some (strL "Unknown question type: " ++ leafStr t)
  | some fields =>
    match fields.find? (fun f => !hasField q f) with
    | some f => some (strL "Missing field " ++ quoted f ++ strL " in question")
    | none => none

/-- ContentGuardrails.validate_quiz. -/
def validate_quiz (quiz_questions : List Question) : Bool × Str :=
  if quiz_questions.isEmpty then (false, strL "No quiz questions generated")
  else
    match quiz_questions.findSome? check_question with
    | some msg => (false, msg)
    | none => (true, strL "Quiz passed validation")

/-- The dangerous_protocols list of ContentGuardrails.validate_url. -/
def dangerous_protocols : List Str :=
  [strL "javascript:", strL "data:", strL "vbscript:"]

/-- ContentGuardrails.validate_url. -/
def validate_url (url : Str) : Bool × Str :=
  if dangerous_protocols.any (fun p => substrIn p (lowerStr url)) then
    (false, strL "Unsafe URL protocol detected")
  else (true, strL "URL is safe")


/-! ## modules/scraper.py: URL classification and id extraction -/

/-- The six host prefixes generated by the alternations
(youtube|youtu|youtube-nocookie).(com|be) of the classification pattern. -/
def youtubeHosts : List Str :=
  [strL "youtube.com/", strL "youtube.be/", strL "youtu.com/", strL "youtu.be/",
   strL "youtube-nocookie.com/", strL "youtube-nocookie.be/"]

/-- The optional scheme group (https?://)? unfolds to these prefixes. -/
def schemePres : List Str := [strL "", strL "http://", strL "https://"]

/-- The optional (www.)? group. -/
def wwwPres : List Str := [strL "", strL "www."]

/-- WebScraper.is_youtube_url. The anchored regex match of
(https?://)?(www.)?(youtube|youtu|youtube-nocookie).(com|be)/ is compiled
to the finite disjunction of its literal prefixes. -/
def is_youtube_url (url : Str) : Bool :=
  schemePres.any fun s => wwwPres.any fun w => youtubeHosts.any fun h =>
    isPreL (s ++ w ++ h) url

/-- The character class of the captures in id patterns 1 and 2: everything
except ampersand, newline, question mark and hash. -/
def idChar (c : Char) : Bool := !(c == '&' || c == '\n' || c == '?' || c == '#')

/-- The character class of the captures in id patterns 3 and 4: everything
except question mark and ampersand. -/
def idChar34 (c : Char) : Bool := !(c == '?' || c == '&')

/-- At one scan position, try the literal alternatives in order; an
alternative succeeds when it is a prefix here and a nonempty capture of kept
characters follows (an empty capture fails the alternative, as the regex
one-or-more group would). -/
def tryAltsAt (alts : List Str) (keep : Char → Bool) (s : Str) : Option Str :=
  match alts with
  | [] => none
  | a :: rest =>
    if isPreL a s then
      let cap := (s.drop a.length).takeWhile keep
      if cap.isEmpty then tryAltsAt rest keep s else some cap
    else tryAltsAt rest keep s

/-- Unanchored regex search for literal alternatives followed by a nonempty
capture: scan positions left to right and return the first success. -/
def searchAlts (alts : List Str) (keep : Char → Bool) : Str → Option Str
  | [] => none
  | c :: rest =>
    match tryAltsAt alts keep (c :: rest) with
    | some cap => some cap
    | none => searchAlts alts keep rest

/-- Pattern 2 continuation after a youtube.com/watch? occurrence: the greedy
dot-star then v= then a nonempty capture. The dot does not cross a newline,
and greediness picks the rightmost feasible v= position. -/
def p2At (tail : Str) : Option Str :=
  let good := fun q =>
    isPreL (strL "v=") (tail.drop q) &&
    (tail.take q).all (fun c => !(c == '\n')) &&
    !((tail.drop (q + 2)).takeWhile idChar).isEmpty
  match ((List.range (tail.length + 1)).filter good).getLast? with
  | some q => some ((tail.drop (q + 2)).takeWhile idChar)
  | none => none

/-- Unanchored search for pattern 2: at each position of the literal
youtube.com/watch? try the continuation, else move one character right. -/
def searchP2 : Str → Option Str
  | [] => none
  | c :: rest =>
    if isPreL (strL "youtube.com/watch?") (c :: rest) then
      match p2At ((c :: rest).drop 18) with
      | some cap => some cap
      | none => searchP2 rest
    else searchP2 rest

/-- The alternatives of the first id pattern. -/
def p1Alts : List Str :=
  [strL "youtube.com/watch?v=", strL "youtu.be/", strL "youtube.com/embed/"]

/-- WebScraper.extract_youtube_id: the four patterns are searched in order
and the first match wins; None when all fail. -/
def extract_youtube_id (url : Str) : Option Str :=
  match searchAlts p1Alts idChar url with
  | some v => some v
  | none =>
    match searchP2 url with
    | some v => some v
    | none =>
      match searchAlts [strL "youtu.be/"] idChar34 url with
      | some v => some v
      | none => searchAlts [strL "youtube.com/embed/"] idChar34 url


/-! ## modules/scraper.py: transcript retrieval and article scraping -/

/-- Decoded JSON values returned by the transcript API. Primitives carry their
truthiness, Python type name and rendering, since the code tests truthiness,
formats attribute errors with the type name, and stringifies values. -/
inductive JVal
  | str (s : Str)
  | arr (xs : List JVal)
  | obj (kvs : List (Str × JVal))
  | prim (truthy : Bool) (typeName : Str) (rendering : Str)

/-- Python truthiness of a decoded JSON value. -/
def JVal.falsy : JVal → Bool
  | .str s => s.isEmpty
  | .arr xs => xs.isEmpty
  | .obj kvs => kvs.isEmpty
  | .prim t _ _ => !t

/-- Python type name of a decoded JSON value. -/
def typeNameJ : JVal → Str
  | .str _ => strL "str"
  | .arr _ => strL "list"
  | .obj _ => strL "dict"
  | .prim _ t _ => t

/-- Dict lookup on a decoded JSON object. -/
def jGet (kvs : List (Str × JVal)) (k : Str) : Option JVal :=
  match kvs.find? (fun kv => kv.1 == k) with
  | some kv => some kv.2
  | none => none

mutual
/-- Python repr of a decoded JSON value (string escaping inside nested
renderings is not modelled; no theorem evaluates the container cases). -/
def pyReprJ : JVal → Str
  | .str s => quoted s
  | .prim _ _ r => r
  | .arr xs => '[' :: (pyReprList xs ++ [']'])
  | .obj kvs => Char.ofNat 123 :: (pyReprObj kvs ++ [Char.ofNat 125])

/-- Comma-separated reprs of array elements. -/
def pyReprList : List JVal → Str
  | [] => []
  | [x] => pyReprJ x
  | x :: y :: rest => pyReprJ x ++ strL ", " ++ pyReprList (y :: rest)

/-- Comma-separated key: value reprs of object entries. -/
def pyReprObj : List (Str × JVal) → Str
  | [] => []
  | [(k, v)] => quoted k ++ strL ": " ++ pyReprJ v
  | (k, v) :: p :: rest =>
    quoted k ++ strL ": " ++ pyReprJ v ++ strL ", " ++ pyReprObj (p :: rest)
end

/-- Python str() of a decoded JSON value. -/
def pyStrJ : JVal → Str
  | .str s => s
  | .prim _ _ r => r
  | v => pyReprJ v

/-- The message of the AttributeError raised by .keys() on a non-dict. -/
def keysErrMsg (v : JVal) : Str :=
  quoted (typeNameJ v) ++ strL " object has no attribute " ++ quoted (strL "keys")

/-- The texts of the kept (dict) fragments of a transcript track, in order;
an error carries the TypeError message raised by the space join when a kept
fragment's text value is not a string (the index counts kept items, as the
join sees the already filtered list). -/
def fragTexts (i : Nat) : List JVal → Except Str (List Str)
  | [] => .ok []
  | .obj kvs :: rest =>
    (match (jGet kvs (strL "text")).getD (.str []) with
     | .str s => (fragTexts (i + 1) rest).map (fun ts => s :: ts)
     | v => .error (strL "sequence item " ++ strL (toString i) ++
         strL ": expected str instance, " ++ typeNameJ v ++ strL " found"))
  | _ :: rest => fragTexts i rest

/-- Python single-space join. -/
def joinSpace : List Str → Str
  | [] => []
  | [s] => s
  | s :: t :: rest => s ++ ' ' :: joinSpace (t :: rest)

/-- The tracks-shape join over transcript_data: dict items contribute their
text value (default empty); iterating a string or a dict yields no dict items
so the join is empty; a primitive is not iterable and raises TypeError. -/
def method2join : JVal → Except Str Str
  | .arr xs => (fragTexts 0 xs).map joinSpace
  | .str _ => .ok []
  | .obj _ => .ok []
  | .prim _ t _ => .error (quoted t ++ strL " object is not iterable")

/-- The shape-selection chain of get_youtube_transcript (Methods 1 to 4):
an if/elif chain keyed on the structure of the transcript item, producing the
selected content value, nothing, or a raised TypeError message. -/
def shapeContent (item : JVal) : Except Str (Option JVal) :=
  match item with
  | .obj kvs =>
    if (jGet kvs (strL "text")).isSome then .ok (jGet kvs (strL "text"))
    else if (jGet kvs (strL "tracks")).isSome then
      match (jGet kvs (strL "tracks")).getD (.arr []) with
      | .arr (t0 :: _) =>
        (match t0 with
         | .obj tkv =>
           if (jGet tkv (strL "transcript")).isSome then
             ((method2join ((jGet tkv (strL "transcript")).getD (.arr []))).map
               (fun s => some (.str s)))
           else .ok none
         | _ => .ok none)
      | _ => .ok none
    else if (jGet kvs (strL "content")).isSome then .ok (jGet kvs (strL "content"))
    else .ok none
  | .str s => .ok (some (.str s))
  | _ => .ok none

/-- Outcome of the article fetch-and-parse, abstracting the network stack and
the HTML parser: a fetched page yields its optional title tag text and the
collapsed visible text; the other constructors are the exception classes the
code catches. -/
inductive ArticleOutcome
  | page (title : Option Str) (text : Str)
  | timeout
  | connErr
  | raises (msg : Str)

/-- Outcome of the transcript API post, abstracting requests.post: either an
exception (timeout or other) or a response with status code and body. -/
inductive BodyOut
  | json (v : JVal)
  | decodeFail

inductive ApiCall
  | timeout
  | raises (msg : Str)
  | response (status : Nat) (body : BodyOut)

/-- Oracles for the scraper's external collaborators: the configured API key,
the transcript API call and the article fetch. -/
structure ScraperEnv where
  apiKey : Option Str
  call : ApiCall
  article : Str → ArticleOutcome

/-- A result dict of the scraper: every literal dict the module returns has
string keys and string values. -/
abbrev ScrapeResult := List (Str × Str)

/-- Lookup in a scraper result dict. -/
def lookupS (d : ScrapeResult) (k : Str) : Option Str :=
  match d.find? (fun kv => kv.1 == k) with
  | some kv => some kv.2
  | none => none

/-- The three-field error dict used throughout the scraper. -/
def errDict (msg url : Str) : ScrapeResult :=
  [(strL "status", strL "error"), (strL "message", msg), (strL "url", url)]

/-- The generic transcript exception handler: route on the lowercased
exception text, else echo its first 100 characters. -/
def transcript_exc (emsg url : Str) : ScrapeResult :=
  let e := lowerStr emsg
  if substrIn (strL "disabled") e then
    errDict (strL "❌ Transcripts are disabled for this video.") url
  else if substrIn (strL "not found") e || substrIn (strL "no transcript") e then
    errDict (strL "⚠️ No captions found. Try another video or use an article URL.") url
  else errDict (strL "Failed: " ++ emsg.take 100) url

/-- WebScraper.get_youtube_transcript. The logging f-string at the head of
the response handling evaluates transcript_item.keys() unconditionally, so a
non-dict item raises AttributeError into the generic handler before any shape
is tried. -/
def get_youtube_transcript (env : ScraperEnv) (url : Str) : ScrapeResult :=
  match extract_youtube_id url with
  | none => errDict (strL "❌ Invalid YouTube URL format. Please check the URL.") url
  | some video_id =>
    if ((env.apiKey).getD []).isEmpty then
      errDict (strL "API key not configured. Please set YOUTUBE_TRANSCRIPT_IO_API_KEY in .env") url
    else
      match env.call with
      | .timeout => errDict (strL "Request timed out. Please try again.") url
      | .raises msg => transcript_exc msg url
      | .response status body =>
        if status ≠ 200 then
          errDict (strL "API Error: " ++ strL (toString status) ++
            strL ". Video may not have captions.") url
        else
          match body with
          | .decodeFail => errDict (strL "Failed to parse API response.") url
          | .json data =>
            match data with
            | .arr (item :: _) =>
              (match item with
               | .obj _ =>
                 (match shapeContent item with
                  | .error emsg => transcript_exc emsg url
                  | .ok contentOpt =>
                    if (match contentOpt with
                        | none => true
                        | some v => v.falsy) then
                      errDict (strL "Failed to parse transcript data.") url
                    else
                      let c := match contentOpt with
                        | some (.str s) => pyStrip s
                        | some v => pyStrip (pyStrJ v)
                        | none => []
                      if c.isEmpty || c.length < 50 then
                        errDict (strL "Transcript is empty or too short.") url
                      else
                        [(strL "status", strL "success"),
                         (strL "title", strL "YouTube Video: " ++ video_id),
                         (strL "content", c),
                         (strL "url", url),
                         (strL "type", strL "video")])
               | v => transcript_exc (keysErrMsg v) url)
            | _ => errDict (strL "⚠️ No transcript found for this video.") url

/-- WebScraper.scrape_article, over the article oracle: a fetched page is
rejected when its collapsed text is under 100 characters; a missing title tag
becomes the placeholder; the caught exception classes map to their dicts. -/
def scrape_article (env : ScraperEnv) (url : Str) : ScrapeResult :=
  match env.article url with
  | .page title text =>
    if text.length < 100 then
      errDict (strL "Article content too short or unable to extract text") url
    else
      [(strL "status", strL "success"),
       (strL "title", title.getD (strL "No title")),
       (strL "content", text),
       (strL "url", url),
       (strL "type", strL "article")]
  | .timeout =>
    errDict (strL "Request timed out. Website took too long to respond.") url
  | .connErr =>
    errDict (strL "Connection error. Unable to reach the website.") url
  | .raises msg =>
    errDict (strL "Failed to scrape article: " ++ msg.take 100) url

/-- The argument of extract_content as Python sees it: None, a non-string
value, or a string. -/
inductive PyArg
  | noneV
  | nonStr
  | str (s : Str)

/-- WebScraper.extract_content. -/
def extract_content (env : ScraperEnv) (arg : PyArg) : ScrapeResult :=
  match arg with
  | .str s =>
    if s.isEmpty then
      [(strL "status", strL "error"), (strL "message", strL "Invalid URL provided")]
    else
      let url := pyStrip s
      if is_youtube_url url then get_youtube_transcript env url
      else scrape_article env url
  | _ => [(strL "status", strL "error"), (strL "message", strL "Invalid URL provided")]

/-! ## modules/quiz_generator.py -/

/-- Outcome of the backend completion call (model.generate_content plus the
response.text access), abstracting the LLM client: the response text, or a
raised exception with its message. -/
inductive GenOutcome
  | ok (text : Str)
  | raises (msg : Str)

/-- Outcome of json.loads on the cleaned response text, abstracting the
standard-library JSON parser: a parsed object reported by its "questions"
entry (the only key the code reads; the entry is an array of question dicts
when present), a parsed non-object value reported by its Python type name, or
a JSONDecodeError. -/
inductive DecodeOut
  | obj (questions : Option (List Question))
  | nonObj (typeName : Str)
  | fail

/-- Oracles for the quiz generator's collaborators. -/
structure QuizEnv where
  gen : GenOutcome
  decode : Str → DecodeOut

/-- A quiz-generator result dict: success carries the quiz list and the model
tag, error carries the message. -/
inductive QuizGenResult
  | success (quiz : List Question) (model : Str)
  | error (message : Str)
deriving DecidableEq

/-- Take characters up to the first occurrence of sep. -/
def takeUntilSub (sep : Str) : Str → Str
  | [] => []
  | c :: rest => if isPreL sep (c :: rest) then [] else c :: takeUntilSub sep rest

/-- The markdown-fence cleanup of generate_with_google: strip the response,
and when it opens with a fence take the chunk between the first and second
fence (the split on the fence at index 1, which with a leading fence is the
text up to the next fence or the end), drop a leading json language tag, and
strip again. -/
def clean_response (text : Str) : Str :=
  let t := pyStrip text
  if isPreL (strL "```") t then
    let mid := takeUntilSub (strL "```") (t.drop 3)
    let mid2 := if isPreL (strL "json") mid then mid.drop 4 else mid
    pyStrip mid2
  else t

/-- QuizGenerator.generate_with_google: a backend exception maps to the
generation-failed dict; a JSONDecodeError maps to the parse-failure dict; a
parsed non-object raises AttributeError at the .get call, caught by the
generic handler; a parsed object yields success with its questions array, or
the empty list when the key is absent. The prompt built from summary and
content reaches the backend through the oracle. -/
def generate_with_google (env : QuizEnv) (_summary _content : Str) : QuizGenResult :=
  match env.gen with
  | .raises msg => .error (strL "Quiz generation failed: " ++ msg)
  | .ok text =>
    match env.decode (clean_response text) with
    | .fail => .error (strL "Failed to parse quiz format")
    | .nonObj tn => .error (strL "Quiz generation failed: " ++ quoted tn ++
        strL " object has no attribute " ++ quoted (strL "get"))
    | .obj q => .success (q.getD []) (strL "google-gemini-2.5-flash")

/-! ## modules/summarizer.py and main.py -/

/-- A summarizer result dict: success carries the summary and the model tag,
error carries the message. -/
inductive SummaryResult
  | ok (summary model : Str)
  | err (message : Str)
deriving DecidableEq

/-- The JSON body of a process_url response: either a status/message pair
built inline by the handler, a stage's own dict passed through jsonify, or
the terminal success envelope. -/
inductive RespBody
  | msg (status message : Str)
  | scrapeDict (d : ScrapeResult)
  | summaryDict (r : SummaryResult)
  | quizDict (r : QuizGenResult)
  | successEnv (title ctype summary : Str) (quiz : List Question) (url : Str)
deriving DecidableEq

/-- The process_url handler of main.py, parameterized by the three stage
modules it calls (scraper.extract_content, summarizer.summarize,
quiz_generator.generate). The absent-field fallback models the KeyError a
malformed success dict would raise into the top-level handler. -/
def process_url (extract : Str → ScrapeResult)
    (summarize : Str → SummaryResult)
    (genQuiz : Str → Str → QuizGenResult)
    (urlRaw : Str) : RespBody × Nat :=
  let url := pyStrip urlRaw
  if url.isEmpty then (.msg (strL "error") (strL "URL is required"), 400)
  else
    match validate_url url with
    | (false, m) => (.msg (strL "error") m, 400)
    | (true, _) =>
      let er := extract url
      if lookupS er (strL "status") ≠ some (strL "success") then
        (.scrapeDict er, 400)
      else
        match lookupS er (strL "title"), lookupS er (strL "content"),
            lookupS er (strL "type") with
        | some title, some content, some ctype =>
          (match summarize content with
           | .err m => (.summaryDict (.err m), 500)
           | .ok summary _mdl =>
             match validate_summary summary with
             | (false, m) => (.msg (strL "error") m, 400)
             | (true, _) =>
               match genQuiz summary content with
               | .error m => (.quizDict (.error m), 500)
               | .success quiz _gm =>
                 (.successEnv title ctype summary quiz url, 200))
        | _, _, _ => (.msg (strL "error") (strL "Internal server error"), 500)

/-! ## Theorems -/

/-- Helper: a member question with a failing check makes validate_quiz fail. -/
theorem validate_quiz_mem_fail {qs : List Question} {q : Question} {m : Str}
    (hq : q ∈ qs) (hm : check_question q = some m) :
    (validate_quiz qs).1 = false := by
  have hne : qs.isEmpty = false := by
    cases qs with
    | nil => cases hq
    | cons a l => rfl
  unfold validate_quiz
  rw [hne]
  cases hfs : qs.findSome? check_question with
  | none =>
    have := (List.findSome?_eq_none_iff.mp hfs) q hq
    rw [this] at hm
    cases hm
  | some msg => simp

/-- C8: validate_url accepts a URL exactly when its lowercased text contains
none of the three deny-listed scheme substrings anywhere in the string; in
particular it rejects javascript:alert(1) and accepts https://example.com. -/
theorem C8_validate_url_spec :
    (∀ u : Str, (validate_url u).1 = true ↔
      ∀ p ∈ dangerous_protocols, substrIn p (lowerStr u) = false) ∧
    (validate_url (strL "javascript:alert(1)")).1 = false ∧
    (validate_url (strL "https://example.com")).1 = true := by
  refine ⟨fun u => ?_, by decide, by decide⟩
  by_cases h : dangerous_protocols.any (fun p => substrIn p (lowerStr u)) = true
  · rw [validate_url, if_pos h]
    simp only [List.any_eq_true] at h
    obtain ⟨p, hp, hsub⟩ := h
    refine iff_of_false (by simp) ?_
    intro hall
    rw [hall p hp] at hsub
    cases hsub
  · have h' := eq_false_of_ne_true h
    rw [validate_url, if_neg h]
    simp only [List.any_eq_false] at h'
    refine iff_of_true rfl ?_
    intro p hp
    exact eq_false_of_ne_true (h' p hp)

/-- Witness for C8 at a concrete accepted URL. -/
theorem C8_witness : (validate_url (strL "https://ok.example/page")).1 = true :=
  (C8_validate_url_spec.1 (strL "https://ok.example/page")).mpr (by decide)

/-- C6: validate_summary passes exactly the nonempty summaries whose length
lies within the configured bounds and whose lowercased text avoids every
deny-list keyword; and any summary containing the substring violence
case-insensitively is rejected, whatever surrounds it. -/
theorem C6_validate_summary_spec :
    ∀ s : Str,
      ((validate_summary s).1 = true ↔
        (s ≠ [] ∧ MIN_SUMMARY_LENGTH ≤ s.length ∧ s.length ≤ MAX_SUMMARY_LENGTH ∧
         ∀ p ∈ forbidden_patterns, substrIn p (lowerStr s) = false)) ∧
      (substrIn (strL "violence") (lowerStr s) = true →
        (validate_summary s).1 = false) := by
  intro s
  have hiff : (validate_summary s).1 = true ↔
      (s ≠ [] ∧ MIN_SUMMARY_LENGTH ≤ s.length ∧ s.length ≤ MAX_SUMMARY_LENGTH ∧
       ∀ p ∈ forbidden_patterns, substrIn p (lowerStr s) = false) := by
    by_cases h0 : s.isEmpty = true
    · obtain rfl := List.isEmpty_iff.mp h0
      simp [validate_summary]
    · rw [validate_summary, if_neg h0]
      have hne : s ≠ [] := fun hs => h0 (by simp [hs])
      by_cases h1 : s.length < MIN_SUMMARY_LENGTH
      · rw [if_pos h1]
        refine iff_of_false (by simp) ?_
        rintro ⟨-, hmin, -, -⟩
        omega
      · rw [if_neg h1]
        by_cases h2 : s.length > MAX_SUMMARY_LENGTH
        · rw [if_pos h2]
          refine iff_of_false (by simp) ?_
          rintro ⟨-, -, hmax, -⟩
          omega
        · rw [if_neg h2]
          by_cases h3 : forbidden_patterns.any (fun p => substrIn p (lowerStr s)) = true
          · rw [if_pos h3]
            simp only [List.any_eq_true] at h3
            obtain ⟨p, hp, hsub⟩ := h3
            refine iff_of_false (by simp) ?_
            rintro ⟨-, -, -, hall⟩
            rw [hall p hp] at hsub
            cases hsub
          · rw [if_neg h3]
            have h3' := eq_false_of_ne_true h3
            simp only [List.any_eq_false] at h3'
            exact iff_of_true rfl
              ⟨hne, by omega, by omega, fun p hp => eq_false_of_ne_true (h3' p hp)⟩
  refine ⟨hiff, fun hv => ?_⟩
  cases hb : (validate_summary s).1 with
  | false => rfl
  | true =>
    have hall := (hiff.mp hb).2.2.2
    have := hall (strL "violence") (by simp [forbidden_patterns])
    rw [this] at hv
    cases hv

/-- Witness for C6: a plain 100-character summary passes; the same summary
prefixed with upper-case VIOLENCE is rejected. -/
theorem C6_witness :
    (validate_summary (List.replicate 100 'a')).1 = true ∧
    (validate_summary (strL "VIOLENCE" ++ List.replicate 100 'a')).1 = false :=
  ⟨((C6_validate_summary_spec (List.replicate 100 'a')).1).mpr (by decide),
   (C6_validate_summary_spec (strL "VIOLENCE" ++ List.replicate 100 'a')).2 (by decide)⟩

/-- C7: validate_quiz rejects the empty list; rejects any list containing a
question whose declared type has no required-field entry (unknown or missing
type); rejects any list containing a question missing a required field of its
type; and accepts the minimal true_false question shape whatever the values
stored under its fields, performing no value-type validation. -/
theorem C7_validate_quiz_spec :
    (validate_quiz []).1 = false ∧
    (∀ (qs : List Question) (q : Question), q ∈ qs →
      required_fields ((qGet q (strL "type")).getD (.str (strL "unknown"))) = none →
      (validate_quiz qs).1 = false) ∧
    (∀ (qs : List Question) (q : Question) (fields : List Str) (f : Str), q ∈ qs →
      required_fields ((qGet q (strL "type")).getD (.str (strL "unknown"))) = some fields →
      f ∈ fields → hasField q f = false →
      (validate_quiz qs).1 = false) ∧
    (∀ v1 v2 v3 : Leaf,
      validate_quiz [[(strL "id", v1), (strL "question", v2),
        (strL "type", .str (strL "true_false")), (strL "correct_answer", v3)]] =
        (true, strL "Quiz passed validation")) := by
  refine ⟨by decide, ?_, ?_, ?_⟩
  · intro qs q hq hreq
    have hcq : check_question q =
        some (strL "Unknown question type: " ++
          leafStr ((qGet q (strL "type")).getD (.str (strL "unknown")))) := by
      simp only [check_question, hreq]
    exact validate_quiz_mem_fail hq hcq
  · intro qs q fields f hq hreq hf hmiss
    have hfind : (fields.find? (fun f => !hasField q f)).isSome := by
      rw [List.find?_isSome]
      exact ⟨f, hf, by rw [hmiss]; rfl⟩
    cases hfs : fields.find? (fun f => !hasField q f) with
    | none => rw [hfs] at hfind; cases hfind
    | some f' =>
      have hcq : check_question q =
          some (strL "Missing field " ++ quoted f' ++ strL " in question") := by
        simp only [check_question, hreq, hfs]
      exact validate_quiz_mem_fail hq hcq
  · intro v1 v2 v3
    rfl

/-- Witness for C7: a question with an unknown type is rejected; a concrete
minimal true_false question is accepted. -/
theorem C7_witness :
    (validate_quiz [[(strL "type", Leaf.str (strL "essay"))]]).1 = false ∧
    validate_quiz [[(strL "id", Leaf.int 1), (strL "question", Leaf.str (strL "2+2=4?")),
      (strL "type", Leaf.str (strL "true_false")), (strL "correct_answer", Leaf.bool true)]] =
      (true, strL "Quiz passed validation") :=
  ⟨C7_validate_quiz_spec.2.1 [[(strL "type", Leaf.str (strL "essay"))]]
      [(strL "type", Leaf.str (strL "essay"))] (by simp) (by decide),
   C7_validate_quiz_spec.2.2.2 (Leaf.int 1) (Leaf.str (strL "2+2=4?")) (Leaf.bool true)⟩

/-- Prefix test succeeds on the whole prefix. -/
theorem isPreL_append_self (l t : Str) : isPreL l (l ++ t) = true := by
  induction l with
  | nil => rfl
  | cons c cs ih => simp [isPreL, ih]

/-- No alternative starting with d can match at a position headed by another
character. -/
theorem tryAltsAt_head_ne {alts : List Str} {keep : Char → Bool} {c : Char}
    {s : Str} {d : Char} (halts : ∀ a ∈ alts, ∃ t, a = d :: t)
    (hc : (d == c) = false) :
    tryAltsAt alts keep (c :: s) = none := by
  induction alts with
  | nil => rfl
  | cons a as ih =>
    obtain ⟨t, rfl⟩ := halts a (List.mem_cons_self a as)
    have hp : isPreL (d :: t) (c :: s) = false := by simp [isPreL, hc]
    simp only [tryAltsAt, hp, Bool.false_eq_true, if_false]
    exact ih (fun a ha => halts a (List.mem_cons_of_mem _ ha))

/-- The scan can skip a leading segment free of the alternatives' head
character. -/
theorem searchAlts_skip {alts : List Str} {keep : Char → Bool} {d : Char}
    (pre rest : Str) (halts : ∀ a ∈ alts, ∃ t, a = d :: t)
    (hpre : ∀ c ∈ pre, (d == c) = false) :
    searchAlts alts keep (pre ++ rest) = searchAlts alts keep rest := by
  induction pre with
  | nil => rfl
  | cons c cs ih =>
    have h1 : tryAltsAt alts keep (c :: (cs ++ rest)) = none :=
      tryAltsAt_head_ne halts (hpre c (List.mem_cons_self c cs))
    simp only [List.cons_append, searchAlts, List.append_eq, h1]
    exact ih (fun c hc => hpre c (List.mem_cons_of_mem _ hc))

/-- Every p1 alternative starts with the letter y. -/
theorem p1Alts_heads : ∀ a ∈ p1Alts, ∃ t, a = 'y' :: t := by
  intro a ha
  simp only [p1Alts, List.mem_cons] at ha
  rcases ha with rfl | rfl | rfl | h
  · exact ⟨strL "outube.com/watch?v=", rfl⟩
  · exact ⟨strL "outu.be/", rfl⟩
  · exact ⟨strL "outube.com/embed/", rfl⟩
  · cases h

/-- Unfolding of the scan at a cons cell. -/
theorem searchAlts_cons_eq (alts : List Str) (keep : Char → Bool) (c : Char) (s : Str) :
    searchAlts alts keep (c :: s) =
      match tryAltsAt alts keep (c :: s) with
      | some cap => some cap
      | none => searchAlts alts keep s := rfl

/-- A successful position resolves the scan. -/
theorem searchAlts_eval_some {alts : List Str} {keep : Char → Bool} {c : Char}
    {s : Str} {v : Str} (h : tryAltsAt alts keep (c :: s) = some v) :
    searchAlts alts keep (c :: s) = some v := by
  rw [searchAlts_cons_eq, h]

/-- Pattern 1 match at the head of the watch form. -/
theorem tryAlts_watch (id : Str) (hid : id.takeWhile idChar = id) (hie : id.isEmpty = false) :
    tryAltsAt p1Alts idChar (strL "youtube.com/watch?v=" ++ id) = some id := by
  have hp1 : isPreL (strL "youtube.com/watch?v=") (strL "youtube.com/watch?v=" ++ id) = true :=
    isPreL_append_self _ _
  simp [p1Alts, tryAltsAt, hp1, List.drop_left, hid, hie]

/-- Pattern 1 match at the head of the shortened form. -/
theorem tryAlts_short (id : Str) (hid : id.takeWhile idChar = id) (hie : id.isEmpty = false) :
    tryAltsAt p1Alts idChar (strL "youtu.be/" ++ id) = some id := by
  have hf1 : isPreL (strL "youtube.com/watch?v=") (strL "youtu.be/" ++ id) = false := rfl
  have hp2 : isPreL (strL "youtu.be/") (strL "youtu.be/" ++ id) = true :=
    isPreL_append_self _ _
  simp [p1Alts, tryAltsAt, hf1, hp2, List.drop_left, hid, hie]

/-- Pattern 1 match at the head of the embed form. -/
theorem tryAlts_embed (id : Str) (hid : id.takeWhile idChar = id) (hie : id.isEmpty = false) :
    tryAltsAt p1Alts idChar (strL "youtube.com/embed/" ++ id) = some id := by
  have hf1 : isPreL (strL "youtube.com/watch?v=") (strL "youtube.com/embed/" ++ id) = false := rfl
  have hf2 : isPreL (strL "youtu.be/") (strL "youtube.com/embed/" ++ id) = false := rfl
  have hp3 : isPreL (strL "youtube.com/embed/") (strL "youtube.com/embed/" ++ id) = true :=
    isPreL_append_self _ _
  simp [p1Alts, tryAltsAt, hf1, hf2, hp3, List.drop_left, hid, hie]

/-- C5: for every well-formed identifier (nonempty, free of the capture
delimiters), the watch, shortened and embed forms all extract that same
identifier; and extraction returns none exactly when every one of the four
ordered patterns fails, in which case the transcript path answers with the
invalid-URL error dict. -/
theorem C5_extract_id_spec :
    (∀ id : Str, id ≠ [] → (∀ c ∈ id, idChar c = true) →
      extract_youtube_id (strL "https://www.youtube.com/watch?v=" ++ id) = some id ∧
      extract_youtube_id (strL "https://youtu.be/" ++ id) = some id ∧
      extract_youtube_id (strL "https://www.youtube.com/embed/" ++ id) = some id) ∧
    (∀ (env : ScraperEnv) (url : Str),
      (extract_youtube_id url = none ↔
        (searchAlts p1Alts idChar url = none ∧ searchP2 url = none ∧
         searchAlts [strL "youtu.be/"] idChar34 url = none ∧
         searchAlts [strL "youtube.com/embed/"] idChar34 url = none)) ∧
      (extract_youtube_id url = none →
        get_youtube_transcript env url =
          errDict (strL "❌ Invalid YouTube URL format. Please check the URL.") url)) := by
  constructor
  · intro id hne hk
    have hid : id.takeWhile idChar = id :=
      List.takeWhile_eq_self_iff.mpr (fun c hc => hk c hc)
    have hie : id.isEmpty = false := by
      cases id with
      | nil => exact absurd rfl hne
      | cons a l => rfl
    refine ⟨?_, ?_, ?_⟩
    · have hs : searchAlts p1Alts idChar
          (strL "https://www.youtube.com/watch?v=" ++ id) = some id := by
        rw [show strL "https://www.youtube.com/watch?v="
              = strL "https://www." ++ strL "youtube.com/watch?v=" from rfl,
           List.append_assoc,
           searchAlts_skip (strL "https://www.") (strL "youtube.com/watch?v=" ++ id)
             p1Alts_heads (by decide)]
        exact searchAlts_eval_some (tryAlts_watch id hid hie)
      simp only [extract_youtube_id, hs]
    · have hs : searchAlts p1Alts idChar (strL "https://youtu.be/" ++ id) = some id := by
        rw [show strL "https://youtu.be/" = strL "https://" ++ strL "youtu.be/" from rfl,
           List.append_assoc,
           searchAlts_skip (strL "https://") (strL "youtu.be/" ++ id)
             p1Alts_heads (by decide)]
        exact searchAlts_eval_some (tryAlts_short id hid hie)
      simp only [extract_youtube_id, hs]
    · have hs : searchAlts p1Alts idChar
          (strL "https://www.youtube.com/embed/" ++ id) = some id := by
        rw [show strL "https://www.youtube.com/embed/"
              = strL "https://www." ++ strL "youtube.com/embed/" from rfl,
           List.append_assoc,
           searchAlts_skip (strL "https://www.") (strL "youtube.com/embed/" ++ id)
             p1Alts_heads (by decide)]
        exact searchAlts_eval_some (tryAlts_embed id hid hie)
      simp only [extract_youtube_id, hs]
  · intro env url
    have hiff : extract_youtube_id url = none ↔
        (searchAlts p1Alts idChar url = none ∧ searchP2 url = none ∧
         searchAlts [strL "youtu.be/"] idChar34 url = none ∧
         searchAlts [strL "youtube.com/embed/"] idChar34 url = none) := by
      unfold extract_youtube_id
      cases h1 : searchAlts p1Alts idChar url with
      | some v => simp [h1]
      | none =>
        cases h2 : searchP2 url with
        | some v => simp [h1, h2]
        | none =>
          cases h3 : searchAlts [strL "youtu.be/"] idChar34 url with
          | some v => simp [h1, h2, h3]
          | none =>
            cases h4 : searchAlts [strL "youtube.com/embed/"] idChar34 url with
            | some v => simp [h1, h2, h3, h4]
            | none => simp [h1, h2, h3, h4]
    refine ⟨hiff, fun h => ?_⟩
    simp only [get_youtube_transcript, h]

/-- Witness for C5 at a concrete identifier and a concrete patternless URL. -/
theorem C5_witness :
    extract_youtube_id (strL "https://youtu.be/" ++ strL "dQw4w9WgXcQ") =
      some (strL "dQw4w9WgXcQ") ∧
    get_youtube_transcript
        { apiKey := some (strL "key"), call := .response 200 (.json (.arr [])),
          article := fun _ => .timeout }
        (strL "https://nohost.example/") =
      errDict (strL "❌ Invalid YouTube URL format. Please check the URL.")
        (strL "https://nohost.example/") :=
  ⟨(C5_extract_id_spec.1 (strL "dQw4w9WgXcQ") (by decide) (by decide)).2.1,
   ((C5_extract_id_spec.2
      { apiKey := some (strL "key"), call := .response 200 (.json (.arr [])),
        article := fun _ => .timeout }
      (strL "https://nohost.example/")).2 (by decide))⟩

/-- The video-host set as the specification claim words it: exactly the three
hosts youtube.com, youtu.be and youtube-nocookie.com, matched as prefixes
after an optional scheme and an optional www. -/
def specVideoHosts : List Str :=
  [strL "youtube.com/", strL "youtu.be/", strL "youtube-nocookie.com/"]

/-- Video-host matching as the specification claim words it, for comparison
with the implemented is_youtube_url. -/
def spec_video_host (url : Str) : Bool :=
  schemePres.any fun s => wwwPres.any fun w => specVideoHosts.any fun h =>
    isPreL (s ++ w ++ h) url

/-- A concrete scraper environment used by closed evaluations. -/
def env0 : ScraperEnv :=
  { apiKey := some (strL "key"), call := .response 200 (.json (.arr [])),
    article := fun _ => .timeout }

/-- Counterexample for C4: the URL https://youtu.com/abc is routed to the
video path by the implementation although its host is not one of the three
hosts the claim names. -/
theorem C4_counterexample :
    is_youtube_url (strL "https://youtu.com/abc") = true ∧
    spec_video_host (strL "https://youtu.com/abc") = false ∧
    extract_content env0 (.str (strL "https://youtu.com/abc")) =
      get_youtube_transcript env0 (strL "https://youtu.com/abc") := by
  refine ⟨by decide, by decide, by decide⟩

/-- C4 (amended): for every nonempty string URL, extract_content routes to
the video path exactly when the stripped URL matches the classification
regex, whose host alternation covers the six combinations of
youtube/youtu/youtube-nocookie with com/be, a strict superset of the three
hosts the claim names; all other URLs route to the article path. -/
theorem C4_routing_amended :
    ∀ (env : ScraperEnv) (s : Str), s ≠ [] →
      (is_youtube_url (pyStrip s) = true →
        extract_content env (.str s) = get_youtube_transcript env (pyStrip s)) ∧
      (is_youtube_url (pyStrip s) = false →
        extract_content env (.str s) = scrape_article env (pyStrip s)) ∧
      (spec_video_host (pyStrip s) = true → is_youtube_url (pyStrip s) = true) := by
  intro env s hne
  have hie : s.isEmpty = false := by
    cases s with
    | nil => exact absurd rfl hne
    | cons a l => rfl
  refine ⟨?_, ?_, ?_⟩
  · intro hy
    simp only [extract_content, hie, Bool.false_eq_true, if_false, hy, if_true]
  · intro hy
    simp only [extract_content, hie, Bool.false_eq_true, if_false, hy]
  · intro hs
    have hsub : ∀ x ∈ specVideoHosts, x ∈ youtubeHosts := by decide
    simp only [spec_video_host, List.any_eq_true] at hs
    obtain ⟨sc, hsc, hw⟩ := hs
    obtain ⟨w, hwm, hh⟩ := hw
    obtain ⟨h, hhm, hpre⟩ := hh
    simp only [is_youtube_url, List.any_eq_true]
    exact ⟨sc, hsc, w, hwm, h, hsub h hhm, hpre⟩

/-- Witness for C4 at a concrete video URL and a concrete article URL. -/
theorem C4_witness :
    extract_content env0 (.str (strL "https://www.youtube.com/watch?v=abc")) =
      get_youtube_transcript env0 (strL "https://www.youtube.com/watch?v=abc") ∧
    extract_content env0 (.str (strL "https://example.com/post")) =
      scrape_article env0 (strL "https://example.com/post") :=
  ⟨(C4_routing_amended env0 (strL "https://www.youtube.com/watch?v=abc")
      (by decide)).1 (by decide),
   (C4_routing_amended env0 (strL "https://example.com/post")
      (by decide)).2.1 (by decide)⟩

/-- A bare-string transcript item longer than fifty characters, a shape the
spec says the extractor handles third in priority. -/
def bareItem : JVal :=
  .str (strL "this transcript is a plain string longer than fifty characters")

/-- Environment for the C3 failing input: the transcript API answers 200 with
the JSON body [bare string]. -/
def env3 : ScraperEnv :=
  { apiKey := some (strL "key"), call := .response 200 (.json (.arr [bareItem])),
    article := fun _ => .timeout }

/-- C3: evaluating the code at the failing input. A 200 response whose body
is a list holding one bare transcript string does not reach the bare-string
shape: the unconditional keys() call in the logging f-string raises
AttributeError first, and the generic handler returns the echoed failure
dict, although the shape chain itself would have extracted the string. -/
theorem C3_bare_string_bug :
    get_youtube_transcript env3 (strL "https://youtu.be/abc123") =
      errDict (strL "Failed: " ++ keysErrMsg bareItem) (strL "https://youtu.be/abc123") ∧
    shapeContent bareItem = .ok (some bareItem) ∧
    50 ≤ (pyStrip (strL "this transcript is a plain string longer than fifty characters")).length :=
  ⟨by decide, rfl, by decide⟩

/-- Result dicts of transcript exception handling carry the URL. -/
theorem transcript_exc_url (m u : Str) :
    lookupS (transcript_exc m u) (strL "url") = some u := by
  unfold transcript_exc
  repeat first
  | rfl
  | split
  | dsimp only

/-- Every result dict of the transcript path carries the URL it was given. -/
theorem yt_has_url (env : ScraperEnv) (u : Str) :
    lookupS (get_youtube_transcript env u) (strL "url") = some u := by
  unfold get_youtube_transcript
  repeat first
  | rfl
  | exact transcript_exc_url _ _
  | split
  | dsimp only

/-- Every result dict of the article path carries the URL it was given. -/
theorem article_has_url (env : ScraperEnv) (u : Str) :
    lookupS (scrape_article env u) (strL "url") = some u := by
  unfold scrape_article
  repeat first
  | rfl
  | split

/-- Counterexample for C10: the whitespace-only input " " is not caught by
the emptiness check, so it reaches the article path and its error result does
carry a url field (holding the stripped, empty URL), where the claim says the
field is omitted. -/
theorem C10_counterexample :
    lookupS (extract_content
        { apiKey := none, call := .timeout,
          article := fun _ => .raises (strL "Invalid URL: no scheme supplied") }
        (.str (strL " "))) (strL "url") = some [] ∧
    extract_content
        { apiKey := none, call := .timeout,
          article := fun _ => .raises (strL "Invalid URL: no scheme supplied") }
        (.str (strL " ")) ≠
      [(strL "status", strL "error"), (strL "message", strL "Invalid URL provided")] :=
  ⟨by decide, by decide⟩

/-- C10 (amended): inputs that are None, not a string, or the empty string
produce the two-field error dict with no url key; every nonempty string input
is stripped and routed onward, and every result the extraction paths produce,
error results included, carries the stripped URL under the url key. -/
theorem C10_url_field_amended :
    ∀ env : ScraperEnv,
      (extract_content env .noneV =
        [(strL "status", strL "error"), (strL "message", strL "Invalid URL provided")]) ∧
      (extract_content env .nonStr =
        [(strL "status", strL "error"), (strL "message", strL "Invalid URL provided")]) ∧
      (extract_content env (.str []) =
        [(strL "status", strL "error"), (strL "message", strL "Invalid URL provided")]) ∧
      (∀ s : Str, s ≠ [] →
        lookupS (extract_content env (.str s)) (strL "url") = some (pyStrip s)) := by
  intro env
  refine ⟨rfl, rfl, rfl, ?_⟩
  intro s hne
  have hie : s.isEmpty = false := by
    cases s with
    | nil => exact absurd rfl hne
    | cons a l => rfl
  simp only [extract_content, hie, Bool.false_eq_true, if_false]
  by_cases hy : is_youtube_url (pyStrip s) = true
  · rw [if_pos hy]
    exact yt_has_url env (pyStrip s)
  · rw [if_neg hy]
    exact article_has_url env (pyStrip s)

/-- Witness for C10 at a concrete article URL. -/
theorem C10_witness :
    lookupS (extract_content env0 (.str (strL "https://example.com/x"))) (strL "url") =
      some (pyStrip (strL "https://example.com/x")) :=
  (C10_url_field_amended env0).2.2.2 (strL "https://example.com/x") (by decide)

/-- Stripping leaves a list alone when its head is not whitespace. -/
theorem dropWhile_head_false {p : Char → Bool} {a : Char} {l : Str} (h : p a = false) :
    (a :: l).dropWhile p = a :: l := by
  simp [List.dropWhile_cons, h]

/-- A fenced response is already stripped: it opens and closes with a
backtick. -/
theorem pyStrip_fenced (body : Str) :
    pyStrip (strL "```json" ++ body ++ strL "```") =
      strL "```json" ++ body ++ strL "```" := by
  unfold pyStrip
  have h1 : (strL "```json" ++ body ++ strL "```").dropWhile isPySpace
      = strL "```json" ++ body ++ strL "```" :=
    dropWhile_head_false (a := btick) (l := (strL "``json" ++ body) ++ strL "```") rfl
  rw [h1]
  have h2 : (strL "```json" ++ body ++ strL "```").reverse.dropWhile isPySpace
      = (strL "```json" ++ body ++ strL "```").reverse := by
    rw [List.reverse_append]
    exact dropWhile_head_false
      (a := btick) (l := strL "``" ++ (strL "```json" ++ body).reverse) rfl
  rw [h2, List.reverse_reverse]

/-- Scanning for the closing fence returns the chunk before it when the chunk
holds no backtick. -/
theorem takeUntil_fence (l : Str) (h : ∀ c ∈ l, c ≠ btick) :
    takeUntilSub (strL "```") (l ++ strL "```") = l := by
  induction l with
  | nil => rfl
  | cons c cs ih =>
    have hc : (btick == c) = false := by
      have hcc := h c (List.mem_cons_self c cs)
      simp only [beq_eq_false_iff_ne]
      exact fun e => hcc e.symm
    have hp : isPreL (strL "```") (c :: (cs ++ strL "```")) = false := by
      have he : isPreL (strL "```") (c :: (cs ++ strL "```"))
          = ((btick == c) && isPreL (strL "``") (cs ++ strL "```")) := rfl
      rw [he, hc, Bool.false_and]
    simp only [List.cons_append, takeUntilSub, List.append_eq, hp,
      Bool.false_eq_true, if_false]
    rw [ih (fun c hc => h c (List.mem_cons_of_mem _ hc))]

/-- The fence cleanup on a response of the shape the backends produce: a
json-tagged fenced block around a backtick-free payload reduces to the
stripped payload. -/
theorem clean_response_fenced (body : Str) (h : ∀ ch ∈ body, ch ≠ btick) :
    clean_response (strL "```json" ++ body ++ strL "```") = pyStrip body := by
  unfold clean_response
  rw [pyStrip_fenced body]
  have hpre : isPreL (strL "```") (strL "```json" ++ body ++ strL "```") = true := rfl
  rw [if_pos hpre]
  have hmid : takeUntilSub (strL "```") ((strL "```json" ++ body ++ strL "```").drop 3)
      = strL "json" ++ body := by
    rw [show (strL "```json" ++ body ++ strL "```").drop 3
          = (strL "json" ++ body) ++ strL "```" from rfl]
    refine takeUntil_fence _ ?_
    intro c hc
    rcases List.mem_append.mp hc with h1 | h2
    · have hj : ∀ c ∈ strL "json", c ≠ btick := by decide
      exact hj c h1
    · exact h c h2
  rw [hmid]
  have htag : isPreL (strL "json") (strL "json" ++ body) = true := isPreL_append_self _ _
  dsimp only
  rw [if_pos htag]
  rw [show List.drop 4 (strL "json" ++ body) = body from rfl]

/-- C9: over the backend and JSON oracles, generate_with_google parses the
fence-cleaned response text; a parsed object yields success carrying its
questions array verbatim or the empty list when the key is absent; a JSON
decode failure yields the parse-error dict; a raised backend exception yields
the generation-failed dict; and the cleanup of a json-tagged fenced block is
exactly the stripped inner payload. No path retries. -/
theorem C9_generate_with_google_spec :
    (∀ (d : Str → DecodeOut) (s c text : Str) (qs : List Question),
        d (clean_response text) = .obj (some qs) →
        generate_with_google ⟨.ok text, d⟩ s c =
          .success qs (strL "google-gemini-2.5-flash")) ∧
    (∀ (d : Str → DecodeOut) (s c text : Str),
        d (clean_response text) = .obj none →
        generate_with_google ⟨.ok text, d⟩ s c =
          .success [] (strL "google-gemini-2.5-flash")) ∧
    (∀ (d : Str → DecodeOut) (s c text : Str),
        d (clean_response text) = .fail →
        generate_with_google ⟨.ok text, d⟩ s c =
          .error (strL "Failed to parse quiz format")) ∧
    (∀ (d : Str → DecodeOut) (s c m : Str),
        generate_with_google ⟨.raises m, d⟩ s c =
          .error (strL "Quiz generation failed: " ++ m)) ∧
    (∀ body : Str, (∀ ch ∈ body, ch ≠ btick) →
        clean_response (strL "```json" ++ body ++ strL "```") = pyStrip body) := by
  refine ⟨?_, ?_, ?_, ?_, clean_response_fenced⟩
  · intro d s c text qs hd
    simp only [generate_with_google, hd]
    rfl
  · intro d s c text hd
    simp only [generate_with_google, hd]
    rfl
  · intro d s c text hd
    simp only [generate_with_google, hd]
  · intro d s c m
    rfl

/-- Witness for C9: a decoder seeing no questions key yields the empty quiz,
and a concrete fenced payload cleans to its stripped inner text. -/
theorem C9_witness :
    generate_with_google ⟨.ok (strL "x"), fun _ => .obj none⟩ (strL "s") (strL "c") =
      .success [] (strL "google-gemini-2.5-flash") ∧
    clean_response (strL "```json" ++ strL " hello " ++ strL "```") =
      pyStrip (strL " hello ") :=
  ⟨C9_generate_with_google_spec.2.1 (fun _ => .obj none) (strL "s") (strL "c")
      (strL "x") rfl,
   C9_generate_with_google_spec.2.2.2.2 (strL " hello ") (by decide)⟩

/-- Reduction of process_url past the URL emptiness and safety gates. -/
theorem process_url_stage2
    (e : Str → ScrapeResult) (s : Str → SummaryResult)
    (g : Str → Str → QuizGenResult) (urlRaw : Str)
    (hne : pyStrip urlRaw ≠ []) (hvu : (validate_url (pyStrip urlRaw)).1 = true) :
    process_url e s g urlRaw =
      (if lookupS (e (pyStrip urlRaw)) (strL "status") ≠ some (strL "success") then
        (RespBody.scrapeDict (e (pyStrip urlRaw)), 400)
      else
        match lookupS (e (pyStrip urlRaw)) (strL "title"),
            lookupS (e (pyStrip urlRaw)) (strL "content"),
            lookupS (e (pyStrip urlRaw)) (strL "type") with
        | some title, some content, some ctype =>
          (match s content with
           | .err m => (RespBody.summaryDict (.err m), 500)
           | .ok summary _mdl =>
             match validate_summary summary with
             | (false, m) => (RespBody.msg (strL "error") m, 400)
             | (true, _) =>
               match g summary content with
               | .error m => (RespBody.quizDict (.error m), 500)
               | .success quiz _gm =>
                 (RespBody.successEnv title ctype summary quiz (pyStrip urlRaw), 200))
        | _, _, _ => (RespBody.msg (strL "error") (strL "Internal server error"), 500)) := by
  have hie : (pyStrip urlRaw).isEmpty = false := by
    cases hp : pyStrip urlRaw with
    | nil => exact absurd hp hne
    | cons a l => rfl
  have hv : validate_url (pyStrip urlRaw) = (true, (validate_url (pyStrip urlRaw)).2) := by
    rw [← hvu]
  unfold process_url
  dsimp only
  rw [if_neg (by rw [hie]; exact Bool.false_ne_true), hv]

/-- Reduction of process_url to the success envelope or the summary gate,
once extraction and summarization succeed. -/
theorem process_url_stage4
    (e : Str → ScrapeResult) (s : Str → SummaryResult)
    (g : Str → Str → QuizGenResult) (urlRaw : Str)
    (title content ctype summary mdl : Str)
    (hne : pyStrip urlRaw ≠ []) (hvu : (validate_url (pyStrip urlRaw)).1 = true)
    (hst : lookupS (e (pyStrip urlRaw)) (strL "status") = some (strL "success"))
    (hti : lookupS (e (pyStrip urlRaw)) (strL "title") = some title)
    (hco : lookupS (e (pyStrip urlRaw)) (strL "content") = some content)
    (hty : lookupS (e (pyStrip urlRaw)) (strL "type") = some ctype)
    (hsm : s content = .ok summary mdl) :
    process_url e s g urlRaw =
      (match validate_summary summary with
       | (false, m) => (RespBody.msg (strL "error") m, 400)
       | (true, _) =>
         match g summary content with
         | .error m => (RespBody.quizDict (.error m), 500)
         | .success quiz _gm =>
           (RespBody.successEnv title ctype summary quiz (pyStrip urlRaw), 200)) := by
  rw [process_url_stage2 e s g urlRaw hne hvu]
  rw [if_neg (by rw [hst]; exact fun hcon => hcon rfl)]
  rw [hti, hco, hty]
  dsimp only
  rw [hsm]

/-- A failing summary guardrail yields the client-error message for every
quiz generator, which is never consulted. -/
theorem process_url_summary_reject
    (e : Str → ScrapeResult) (s : Str → SummaryResult)
    (g : Str → Str → QuizGenResult) (urlRaw : Str)
    (title content ctype summary mdl : Str)
    (hne : pyStrip urlRaw ≠ []) (hvu : (validate_url (pyStrip urlRaw)).1 = true)
    (hst : lookupS (e (pyStrip urlRaw)) (strL "status") = some (strL "success"))
    (hti : lookupS (e (pyStrip urlRaw)) (strL "title") = some title)
    (hco : lookupS (e (pyStrip urlRaw)) (strL "content") = some content)
    (hty : lookupS (e (pyStrip urlRaw)) (strL "type") = some ctype)
    (hsm : s content = .ok summary mdl)
    (hvs : (validate_summary summary).1 = false) :
    process_url e s g urlRaw =
      (RespBody.msg (strL "error") (validate_summary summary).2, 400) := by
  rw [process_url_stage4 e s g urlRaw title content ctype summary mdl
    hne hvu hst hti hco hty hsm]
  have hv2 : validate_summary summary = (false, (validate_summary summary).2) := by
    rw [← hvs]
  rw [hv2]

/-- C1: when extraction, summarization and quiz generation all succeed, a
failing quiz guardrail does not short-circuit: the 200 success envelope still
carries the quiz; whereas a failing summary guardrail returns the error
response and the quiz generator is never invoked (the response is the same
for every quiz generator). -/
theorem C1_quiz_validation_nonfatal :
    ∀ (e : Str → ScrapeResult) (s : Str → SummaryResult)
      (g : Str → Str → QuizGenResult) (urlRaw : Str)
      (title content ctype summary mdl : Str) (quiz : List Question) (gm : Str),
      pyStrip urlRaw ≠ [] →
      (validate_url (pyStrip urlRaw)).1 = true →
      lookupS (e (pyStrip urlRaw)) (strL "status") = some (strL "success") →
      lookupS (e (pyStrip urlRaw)) (strL "title") = some title →
      lookupS (e (pyStrip urlRaw)) (strL "content") = some content →
      lookupS (e (pyStrip urlRaw)) (strL "type") = some ctype →
      s content = .ok summary mdl →
      g summary content = .success quiz gm →
      (((validate_summary summary).1 = true → (validate_quiz quiz).1 = false →
          process_url e s g urlRaw =
            (.successEnv title ctype summary quiz (pyStrip urlRaw), 200)) ∧
       ((validate_summary summary).1 = false →
          (process_url e s g urlRaw =
             (.msg (strL "error") (validate_summary summary).2, 400) ∧
           ∀ g2 : Str → Str → QuizGenResult,
             process_url e s g urlRaw = process_url e s g2 urlRaw))) := by
  intro e s g urlRaw title content ctype summary mdl quiz gm
  intro hne hvu hst hti hco hty hsm hqg
  constructor
  · intro hvs _hquiz
    rw [process_url_stage4 e s g urlRaw title content ctype summary mdl
      hne hvu hst hti hco hty hsm]
    have hv2 : validate_summary summary = (true, (validate_summary summary).2) := by
      rw [← hvs]
    rw [hv2]
    dsimp only
    rw [hqg]
  · intro hvs
    refine ⟨process_url_summary_reject e s g urlRaw title content ctype summary mdl
      hne hvu hst hti hco hty hsm hvs, ?_⟩
    intro g2
    rw [process_url_summary_reject e s g urlRaw title content ctype summary mdl
      hne hvu hst hti hco hty hsm hvs,
      process_url_summary_reject e s g2 urlRaw title content ctype summary mdl
      hne hvu hst hti hco hty hsm hvs]

/-- A concrete extractor oracle producing a well-formed success dict. -/
def exOk : Str → ScrapeResult := fun u =>
  [(strL "status", strL "success"), (strL "title", strL "T"),
   (strL "content", strL "C"), (strL "url", u), (strL "type", strL "article")]

/-- A concrete extractor oracle producing an error dict. -/
def exFail : Str → ScrapeResult := fun u => errDict (strL "boom") u

/-- A concrete summarizer oracle returning a 150-character summary. -/
def sumOk : Str → SummaryResult := fun _ => .ok (List.replicate 150 'a') (strL "g")

/-- A concrete quiz oracle returning the empty question list, which the quiz
guardrail rejects. -/
def quizEmpty : Str → Str → QuizGenResult := fun _ _ => .success [] (strL "g")

set_option maxRecDepth 4000 in
/-- Witness for C1: with succeeding stages and the guardrail-rejected empty
quiz, the handler still answers 200 with the success envelope. -/
theorem C1_witness :
    process_url exOk sumOk quizEmpty (strL "https://example.com/a") =
      (.successEnv (strL "T") (strL "article") (List.replicate 150 'a') []
        (pyStrip (strL "https://example.com/a")), 200) :=
  (C1_quiz_validation_nonfatal exOk sumOk quizEmpty (strL "https://example.com/a")
      (strL "T") (strL "C") (strL "article") (List.replicate 150 'a') (strL "g")
      [] (strL "g")
      (by decide) (by decide) (by decide) (by decide) (by decide) (by decide)
      (by decide) (by decide)).1 (by decide) (by decide)

/-- Environment for the transcript-API 404 scenario. -/
def env404 : ScraperEnv :=
  { apiKey := some (strL "key"), call := .response 404 (.json (.arr [])),
    article := fun _ => .timeout }

/-- C2: the orchestrator short-circuits at the first non-success stage and
maps it to an HTTP class: empty URL, unsafe URL, extraction failure and
summary-guardrail failure answer 400; summarization failure and
quiz-generation failure answer 500; and a transcript-API 404 on a valid
video URL concretely produces the 400 extraction-failure response. -/
theorem C2_http_status_mapping :
    (∀ (e : Str → ScrapeResult) (s : Str → SummaryResult)
       (g : Str → Str → QuizGenResult) (urlRaw : Str),
        pyStrip urlRaw = [] →
        process_url e s g urlRaw =
          (.msg (strL "error") (strL "URL is required"), 400)) ∧
    (∀ (e : Str → ScrapeResult) (s : Str → SummaryResult)
       (g : Str → Str → QuizGenResult) (urlRaw : Str),
        pyStrip urlRaw ≠ [] → (validate_url (pyStrip urlRaw)).1 = false →
        process_url e s g urlRaw =
          (.msg (strL "error") (validate_url (pyStrip urlRaw)).2, 400)) ∧
    (∀ (e : Str → ScrapeResult) (s : Str → SummaryResult)
       (g : Str → Str → QuizGenResult) (urlRaw : Str),
        pyStrip urlRaw ≠ [] → (validate_url (pyStrip urlRaw)).1 = true →
        lookupS (e (pyStrip urlRaw)) (strL "status") ≠ some (strL "success") →
        process_url e s g urlRaw = (.scrapeDict (e (pyStrip urlRaw)), 400)) ∧
    (∀ (e : Str → ScrapeResult) (s : Str → SummaryResult)
       (g : Str → Str → QuizGenResult) (urlRaw : Str)
       (title content ctype m : Str),
        pyStrip urlRaw ≠ [] → (validate_url (pyStrip urlRaw)).1 = true →
        lookupS (e (pyStrip urlRaw)) (strL "status") = some (strL "success") →
        lookupS (e (pyStrip urlRaw)) (strL "title") = some title →
        lookupS (e (pyStrip urlRaw)) (strL "content") = some content →
        lookupS (e (pyStrip urlRaw)) (strL "type") = some ctype →
        s content = .err m →
        process_url e s g urlRaw = (.summaryDict (.err m), 500)) ∧
    (∀ (e : Str → ScrapeResult) (s : Str → SummaryResult)
       (g : Str → Str → QuizGenResult) (urlRaw : Str)
       (title content ctype summary mdl : Str),
        pyStrip urlRaw ≠ [] → (validate_url (pyStrip urlRaw)).1 = true →
        lookupS (e (pyStrip urlRaw)) (strL "status") = some (strL "success") →
        lookupS (e (pyStrip urlRaw)) (strL "title") = some title →
        lookupS (e (pyStrip urlRaw)) (strL "content") = some content →
        lookupS (e (pyStrip urlRaw)) (strL "type") = some ctype →
        s content = .ok summary mdl →
        (validate_summary summary).1 = false →
        process_url e s g urlRaw =
          (.msg (strL "error") (validate_summary summary).2, 400)) ∧
    (∀ (e : Str → ScrapeResult) (s : Str → SummaryResult)
       (g : Str → Str → QuizGenResult) (urlRaw : Str)
       (title content ctype summary mdl m : Str),
        pyStrip urlRaw ≠ [] → (validate_url (pyStrip urlRaw)).1 = true →
        lookupS (e (pyStrip urlRaw)) (strL "status") = some (strL "success") →
        lookupS (e (pyStrip urlRaw)) (strL "title") = some title →
        lookupS (e (pyStrip urlRaw)) (strL "content") = some content →
        lookupS (e (pyStrip urlRaw)) (strL "type") = some ctype →
        s content = .ok summary mdl →
        (validate_summary summary).1 = true →
        g summary content = .error m →
        process_url e s g urlRaw = (.quizDict (.error m), 500)) ∧
    (process_url (fun u => extract_content env404 (.str u)) sumOk quizEmpty
        (strL "https://www.youtube.com/watch?v=dQw4w9WgXcQ") =
      (.scrapeDict (errDict (strL "API Error: 404. Video may not have captions.")
          (strL "https://www.youtube.com/watch?v=dQw4w9WgXcQ")), 400)) := by
  refine ⟨?_, ?_, ?_, ?_, ?_, ?_, by decide⟩
  · intro e s g urlRaw h
    unfold process_url
    dsimp only
    rw [if_pos (by rw [h]; rfl)]
  · intro e s g urlRaw hne hvf
    have hie : (pyStrip urlRaw).isEmpty = false := by
      cases hp : pyStrip urlRaw with
      | nil => exact absurd hp hne
      | cons a l => rfl
    have hv : validate_url (pyStrip urlRaw) =
        (false, (validate_url (pyStrip urlRaw)).2) := by
      rw [← hvf]
    unfold process_url
    dsimp only
    rw [if_neg (by rw [hie]; exact Bool.false_ne_true), hv]
  · intro e s g urlRaw hne hvu hst
    rw [process_url_stage2 e s g urlRaw hne hvu, if_pos hst]
  · intro e s g urlRaw title content ctype m hne hvu hst hti hco hty hsm
    rw [process_url_stage2 e s g urlRaw hne hvu]
    rw [if_neg (by rw [hst]; exact fun hcon => hcon rfl)]
    rw [hti, hco, hty]
    dsimp only
    rw [hsm]
  · intro e s g urlRaw title content ctype summary mdl
      hne hvu hst hti hco hty hsm hvs
    exact process_url_summary_reject e s g urlRaw title content ctype summary mdl
      hne hvu hst hti hco hty hsm hvs
  · intro e s g urlRaw title content ctype summary mdl m
      hne hvu hst hti hco hty hsm hvs hqg
    rw [process_url_stage4 e s g urlRaw title content ctype summary mdl
      hne hvu hst hti hco hty hsm]
    have hv2 : validate_summary summary = (true, (validate_summary summary).2) := by
      rw [← hvs]
    rw [hv2]
    dsimp only
    rw [hqg]

/-- Witness for C2 at a whitespace-only URL and at a failing extractor. -/
theorem C2_witness :
    process_url exOk sumOk quizEmpty (strL " ") =
      (.msg (strL "error") (strL "URL is required"), 400) ∧
    process_url exFail sumOk quizEmpty (strL "https://example.com/a") =
      (.scrapeDict (exFail (pyStrip (strL "https://example.com/a"))), 400) :=
  ⟨C2_http_status_mapping.1 exOk sumOk quizEmpty (strL " ") (by decide),
   C2_http_status_mapping.2.2.1 exFail sumOk quizEmpty (strL "https://example.com/a")
     (by decide) (by decide) (by decide)⟩
